import Mathlib

/-!
Verification of the N-Wheeler-AI behavior monitor (`backend/ueba/monitor.py`)
and pipeline orchestrator (`backend/agents/master_agent.py`).

The Python code is shallowly embedded as pure Lean functions.  Mutable
object state (`UEBAMonitor.activity_logs`, `agent_activity_counts`) becomes
explicit state passing; `datetime.utcnow()` becomes an explicit clock value
(seconds as `Int`) threaded through each call; the Isolation-Forest model is
an abstract predictor whose invocation may fail (`Except`), mirroring the
`try/except` around `model.predict`.  Feature vectors are integral because
the source hardcodes `success_rate = 1.0` and every other feature is an
integer.
-/

namespace NWheeler

/-- One entry of `UEBAMonitor.activity_logs`: the dict built at the top of
`log_agent_activity` (monitor.py lines 121-128). -/
structure Activity where
  agent : String
  action : String
  metadata : List (String × String)
  timestamp : Int
  hour : Nat
  day_of_week : Nat
deriving DecidableEq, Repr

/-- One entry of `UEBAMonitor.normal_patterns` (monitor.py lines 33-58). -/
structure Pattern where
  max_calls_per_minute : Nat
  allowed_actions : List String
deriving DecidableEq, Repr

/-- `self.normal_patterns` (monitor.py lines 33-58).  In the source this is
an instance attribute, but it is initialised to the same literal dict for
every instance and never mutated, so it is embedded as a constant. -/
def normal_patterns : List (String × Pattern) :=
  [ ("master_agent",
      ⟨100, ["process_telematics_data", "handle_customer_query",
             "schedule_maintenance", "submit_feedback", "get_vehicle_status"]⟩),
    ("data_analysis_agent", ⟨200, ["analyze_data", "get_latest_analysis"]⟩),
    ("diagnosis_agent", ⟨100, ["predict_failures", "get_predictions"]⟩),
    ("customer_agent", ⟨50, ["process_message", "send_alert"]⟩),
    ("scheduling_agent",
      ⟨30, ["schedule_appointment", "auto_schedule", "get_available_slots",
            "cancel_appointment"]⟩),
    ("feedback_agent", ⟨20, ["process_feedback", "get_feedback_summary"]⟩) ]

/-- Dict lookup `self.normal_patterns[agent_name]` guarded by
`agent_name in self.normal_patterns`. -/
def lookupPattern (agent : String) : Option Pattern :=
  normal_patterns.lookup agent

/-- One anomaly dict appended to `anomalies` in `_check_anomaly`
(monitor.py lines 170-174, 180-184, 193-197). -/
structure Finding where
  type : String
  severity : String
  message : String
deriving DecidableEq, Repr

/-- The dict returned by `_check_anomaly` when `anomalies` is non-empty
(monitor.py lines 202-208). -/
structure Report where
  detected : Bool
  anomalies : List Finding
  agent : String
  action : String
deriving DecidableEq, Repr

/-- The Isolation-Forest model: an abstract predictor.  `predict feats`
returns `.ok true` when the source's `model.predict([features])[0] == -1`
(an outlier), `.ok false` for an inlier, and `.error` when the underlying
`model.predict` raises (caught by the `except` in `_check_anomaly`). -/
structure MLModel where
  predict : List Int → Except String Bool

/-- The mutable state of one `UEBAMonitor` instance.  `model` is `none` when
`_load_or_create_model` produced `None` (scikit-learn unavailable);
`sklearn_available` embeds the module-level `SKLEARN_AVAILABLE` flag.
`handled` is instrumentation recording each invocation of `_handle_anomaly`
(which in the source only logs): it lets theorems observe that the anomaly
handler was invoked. -/
structure UEBAMonitor where
  activity_logs : List Activity
  model : Option MLModel
  sklearn_available : Bool
  agent_activity_counts : List (String × Nat)
  handled : List (Activity × Report)

/-- A freshly constructed monitor: empty ledger and counts
(monitor.py lines 25-30), with the model/sklearn flag as produced by
`_load_or_create_model` and the import guard. -/
def UEBAMonitor.init (model : Option MLModel) (skl : Bool) : UEBAMonitor :=
  ⟨[], model, skl, [], []⟩

/-- Python list slice `l[-n:]`: the last `min n (length l)` elements. -/
def lastN (n : Nat) (l : List α) : List α :=
  l.drop (l.length - n)

/-- Python `(utcnow - timestamp).seconds`: the seconds component of the
normalised timedelta, i.e. the total delta modulo 86400 with a non-negative
result (Python's floor-style normalisation, matching `Int.emod`). -/
def tdSeconds (now ts : Int) : Int :=
  (now - ts) % 86400

/-- The `recent_activities` comprehension of the rate-limit check
(monitor.py lines 163-167): entries of `activity_logs[-100:]` for this agent
whose timedelta-seconds component is below 60. -/
def recentActivities (logs : List Activity) (now : Int) (agent : String) :
    List Activity :=
  (lastN 100 logs).filter
    (fun l => l.agent == agent && decide (tdSeconds now l.timestamp < 60))

/-- Check 1 of `_check_anomaly` (monitor.py lines 160-174): rate limiting. -/
def rateFindings (logs : List Activity) (now : Int) (agent : String) :
    List Finding :=
  match lookupPattern agent with
  | none => []
  | some pattern =>
    if (recentActivities logs now agent).length > pattern.max_calls_per_minute
    then [⟨"rate_limit_exceeded", "high",
           "Agent " ++ agent ++ " exceeded rate limit (" ++
             toString pattern.max_calls_per_minute ++ " calls/min)"⟩]
    else []

/-- Check 2 of `_check_anomaly` (monitor.py lines 176-184): allow-list. -/
def unauthorizedFindings (agent action : String) : List Finding :=
  match lookupPattern agent with
  | none => []
  | some pattern =>
    if pattern.allowed_actions.contains action then []
    else [⟨"unauthorized_action", "critical",
           "Agent " ++ agent ++ " attempted unauthorized action: " ++ action⟩]

/-- `agent_id_map` in `_extract_features` (monitor.py lines 224-231). -/
def agent_id_map : List (String × Nat) :=
  [("master_agent", 0), ("data_analysis_agent", 1), ("diagnosis_agent", 2),
   ("customer_agent", 3), ("scheduling_agent", 4), ("feedback_agent", 5)]

/-- `_extract_features` (monitor.py lines 212-239): requires at least 5
matching entries among the last 100 ledger entries, else `None`.  The
feature vector is `[agent_id, actions_per_hour, hour, day, success_rate]`
with `success_rate` hardcoded to 1. -/
def extract_features (logs : List Activity) (now_hour now_day : Nat)
    (agent : String) : Option (List Int) :=
  let recent := (lastN 100 logs).filter (fun l => l.agent == agent)
  if recent.length < 5 then none
  else some [((agent_id_map.lookup agent).getD 0 : Nat), (recent.length : Nat),
             (now_hour : Nat), (now_day : Nat), 1]

/-- Check 3 of `_check_anomaly` (monitor.py lines 186-200): ML-based
detection, gated on a present model, `SKLEARN_AVAILABLE`, and at least 10
entries in the whole ledger; Python's `if features:` also skips an empty
feature list; any error from the model is swallowed (`except: pass`). -/
def mlFindings (model : Option MLModel) (skl : Bool) (logs : List Activity)
    (now_hour now_day : Nat) (agent : String) : List Finding :=
  match model with
  | none => []
  | some f =>
    if skl && logs.length ≥ 10 then
      match extract_features logs now_hour now_day agent with
      | none => []
      | some feats =>
        if feats.isEmpty then []
        else
          match f.predict feats with
          | Except.ok true =>
              [⟨"ml_anomaly", "medium",
                "ML model detected anomalous pattern for agent " ++ agent⟩]
          | Except.ok false => []
          | Except.error _ => []
    else []

/-- `_check_anomaly` (monitor.py lines 147-210): accumulate the three checks
in order and wrap non-empty findings in a report, else `None`. -/
def check_anomaly (m : UEBAMonitor) (now : Int) (now_hour now_day : Nat)
    (agent action : String) : Option Report :=
  let anomalies :=
    rateFindings m.activity_logs now agent
      ++ unauthorizedFindings agent action
      ++ mlFindings m.model m.sklearn_available m.activity_logs
           now_hour now_day agent
  if anomalies.isEmpty then none
  else some ⟨true, anomalies, agent, action⟩

/-- One invocation of `log_agent_activity`: the clock values sampled by
`datetime.utcnow()` during the call, plus the arguments. -/
structure CallInput where
  now : Int
  hour : Nat
  day_of_week : Nat
  agent : String
  action : String
  metadata : List (String × String)
deriving DecidableEq, Repr

/-- The `activity` dict built at monitor.py lines 121-128. -/
def toActivity (c : CallInput) : Activity :=
  ⟨c.agent, c.action, c.metadata, c.now, c.hour, c.day_of_week⟩

/-- The ledger append with FIFO bound (monitor.py lines 130-134): append,
then keep only the last `cap` entries (`cap` is hardcoded to 10000 at the
use site). -/
def ledgerAppend (cap : Nat) (logs : List Activity) (a : Activity) :
    List Activity :=
  let appended := logs ++ [a]
  if appended.length > cap then lastN cap appended else appended

/-- The state after the append step of `log_agent_activity`
(monitor.py lines 130-134). -/
def appendActivity (m : UEBAMonitor) (c : CallInput) : UEBAMonitor :=
  { m with activity_logs := ledgerAppend 10000 m.activity_logs (toActivity c) }

/-- `self.agent_activity_counts[key] += 1` on a `defaultdict(int)`
(monitor.py lines 143-145), as an association-list update. -/
def bumpCount : List (String × Nat) → String → List (String × Nat)
  | [], key => [(key, 1)]
  | (k, v) :: rest, key =>
    if k == key then (k, v + 1) :: rest else (k, v) :: bumpCount rest key

/-- Result of one `log_agent_activity` call: the updated monitor, the value
returned to the caller (`ret` — the Python function has no `return`
statement, so this is always `None`), and the local variable `anomaly`
computed inside the call. -/
structure RecordResult where
  monitor : UEBAMonitor
  ret : Option Report
  anomaly : Option Report

/-- `log_agent_activity` (monitor.py lines 112-145): build the activity,
append it with the FIFO bound, run `_check_anomaly` on the updated state, on
a detected anomaly invoke `_handle_anomaly` (observed via `handled`), bump
the per-key activity count, and fall off the end of the function (returning
`None`). -/
def log_agent_activity (m : UEBAMonitor) (c : CallInput) : RecordResult :=
  let activity := toActivity c
  let m1 := appendActivity m c
  let anomaly := check_anomaly m1 c.now c.hour c.day_of_week c.agent c.action
  let m2 :=
    match anomaly with
    | some r => { m1 with handled := m1.handled ++ [(activity, r)] }
    | none => m1
  let m3 := { m2 with
    agent_activity_counts :=
      bumpCount m2.agent_activity_counts (c.agent ++ ":" ++ c.action) }
  ⟨m3, none, anomaly⟩

/-- A sequence of `log_agent_activity` calls, threading the monitor state. -/
def runActivities (m : UEBAMonitor) (calls : List CallInput) : UEBAMonitor :=
  calls.foldl (fun st c => (log_agent_activity st c).monitor) m

/-- Whether some finding of an (optional) report satisfies `p`. -/
def reportAny (r : Option Report) (p : Finding → Bool) : Bool :=
  match r with
  | none => false
  | some rep => rep.anomalies.any p

/-- Whether an (optional) report contains a finding of the given type. -/
def hasFindingOfType (r : Option Report) (t : String) : Bool :=
  reportAny r (fun f => f.type == t)

/-- Whether an (optional) report contains a finding of the given type and
severity. -/
def hasFindingOfTypeSev (r : Option Report) (t sev : String) : Bool :=
  reportAny r (fun f => f.type == t && f.severity == sev)

/-! ## Pipeline orchestrator (`backend/agents/master_agent.py`) -/

/-- A Python exception propagated out of a collaborator call. -/
abbrev PyErr := String

/-- Result dict of `DataAnalysisAgent.analyze_data`; its contents are opaque
to the orchestrator. -/
structure AnalysisResult where
  raw : List (String × String)
deriving DecidableEq, Repr

/-- Result dict of `SchedulingAgent.auto_schedule`; opaque to the
orchestrator except for being attached to the diagnosis. -/
structure ScheduleResult where
  raw : List (String × String)
deriving DecidableEq, Repr

/-- Result of `CustomerAgent.send_alert`; discarded by the orchestrator. -/
structure NotifyResult where
  raw : List (String × String)
deriving DecidableEq, Repr

/-- Result dict of `DiagnosisAgent.predict_failures` as read by the
orchestrator: `diagnosis_result.get("critical_alert", False)`,
`.get("auto_schedule", False)`, `.get("recommended_service")` (absent key
gives `None`), and the slot for the `"scheduling"` key assigned at
master_agent.py line 67.  All other keys are opaque (`raw`). -/
structure DiagnosisResult where
  critical_alert : Bool
  auto_schedule : Bool
  recommended_service : Option String
  scheduling : Option ScheduleResult
  raw : List (String × String)
deriving DecidableEq, Repr

/-- The `sensor_data` argument: the orchestrator reads only
`sensor_data.get("timestamp")`; the rest is opaque. -/
structure SensorData where
  timestamp : Option String
  raw : List (String × String)
deriving DecidableEq, Repr

/-- The four collaborator calls issued by `process_telematics_data`
(master_agent.py lines 48, 52, 58, 63), as abstract fallible interfaces:
`Except.error` models the callee raising an exception. -/
structure Collaborators where
  analyze_data : String → SensorData → Except PyErr AnalysisResult
  predict_failures : String → AnalysisResult → Except PyErr DiagnosisResult
  send_alert : String → DiagnosisResult → Except PyErr NotifyResult
  auto_schedule : String → Option String → Except PyErr ScheduleResult

/-- Observable events of one pipeline run, in execution order: the Behavior
Monitor record issued at master_agent.py line 42, and each collaborator
invocation. -/
inductive PipelineEvent where
  | monitorRecord (agent action : String)
  | analyzeCall (vehicle_id : String)
  | diagnoseCall (vehicle_id : String)
  | notifyCall (vehicle_id : String)
  | scheduleCall (vehicle_id : String) (service : Option String)
deriving DecidableEq, Repr

/-- Whether a trace event is a collaborator invocation (as opposed to a
Behavior Monitor record). -/
def isCollaboratorCall : PipelineEvent → Bool
  | PipelineEvent.monitorRecord _ _ => false
  | _ => true

/-- Whether a trace event is a Behavior Monitor record. -/
def isMonitorRecord : PipelineEvent → Bool
  | PipelineEvent.monitorRecord _ _ => true
  | _ => false

/-- The dict returned by `process_telematics_data` on success
(master_agent.py lines 69-74). -/
structure PipelineOutcome where
  vehicle_id : String
  analysis : AnalysisResult
  diagnosis : DiagnosisResult
  timestamp : Option String
deriving DecidableEq, Repr

/-- Result of one pipeline run: the Behavior Monitor state, the ordered
event trace, and either the returned outcome dict or the propagated
exception. -/
structure PipelineRun where
  monitor : UEBAMonitor
  trace : List PipelineEvent
  result : Except PyErr PipelineOutcome

/-- `MasterAgent.process_telematics_data` (master_agent.py lines 29-78):
one monitor record, then analyze; then diagnose; if `critical_alert`,
notify; if additionally `auto_schedule`, schedule and attach the result
under the diagnosis's `"scheduling"` key.  The surrounding
`try/except ... raise` re-raises any exception unchanged, so collaborator
errors propagate to the caller. -/
def process_telematics_data (c : Collaborators) (m : UEBAMonitor)
    (call_now : Int) (call_hour call_day : Nat)
    (vehicle_id : String) (sensor_data : SensorData) : PipelineRun :=
  let m1 := (log_agent_activity m
    ⟨call_now, call_hour, call_day, "master_agent", "process_telematics_data",
     [("vehicle_id", vehicle_id)]⟩).monitor
  let tr0 := [PipelineEvent.monitorRecord "master_agent" "process_telematics_data"]
  match c.analyze_data vehicle_id sensor_data with
  | Except.error e => ⟨m1, tr0 ++ [PipelineEvent.analyzeCall vehicle_id], Except.error e⟩
  | Except.ok analysis_result =>
    let tr1 := tr0 ++ [PipelineEvent.analyzeCall vehicle_id]
    match c.predict_failures vehicle_id analysis_result with
    | Except.error e => ⟨m1, tr1 ++ [PipelineEvent.diagnoseCall vehicle_id], Except.error e⟩
    | Except.ok diagnosis_result =>
      let tr2 := tr1 ++ [PipelineEvent.diagnoseCall vehicle_id]
      if diagnosis_result.critical_alert then
        match c.send_alert vehicle_id diagnosis_result with
        | Except.error e => ⟨m1, tr2 ++ [PipelineEvent.notifyCall vehicle_id], Except.error e⟩
        | Except.ok _ =>
          let tr3 := tr2 ++ [PipelineEvent.notifyCall vehicle_id]
          if diagnosis_result.auto_schedule then
            match c.auto_schedule vehicle_id diagnosis_result.recommended_service with
            | Except.error e =>
                ⟨m1, tr3 ++ [PipelineEvent.scheduleCall vehicle_id
                               diagnosis_result.recommended_service],
                 Except.error e⟩
            | Except.ok schedule_result =>
                ⟨m1, tr3 ++ [PipelineEvent.scheduleCall vehicle_id
                               diagnosis_result.recommended_service],
                 Except.ok ⟨vehicle_id, analysis_result,
                   { diagnosis_result with scheduling := some schedule_result },
                   sensor_data.timestamp⟩⟩
          else
            ⟨m1, tr3, Except.ok ⟨vehicle_id, analysis_result, diagnosis_result,
              sensor_data.timestamp⟩⟩
      else
        ⟨m1, tr2, Except.ok ⟨vehicle_id, analysis_result, diagnosis_result,
          sensor_data.timestamp⟩⟩

/-- Walk a trace remembering the previous event, checking that every
collaborator invocation is immediately preceded by a monitor record. -/
def monitoredBeforeEachStageAux : Option PipelineEvent → List PipelineEvent → Bool
  | _, [] => true
  | prev, e :: rest =>
    (if isCollaboratorCall e then
       match prev with
       | some p => isMonitorRecord p
       | none => false
     else true) && monitoredBeforeEachStageAux (some e) rest

/-- Modelled from the spec claim wording (for claim C4): every collaborator
invocation in a trace is immediately preceded by a Behavior Monitor record,
i.e. each stage transition is monitored before the collaborator call
executes. -/
def monitoredBeforeEachStage (tr : List PipelineEvent) : Bool :=
  monitoredBeforeEachStageAux none tr


/-! Helper lemmas -/

theorem lastN_length (n : Nat) (l : List α) : (lastN n l).length = min n l.length := by
  simp [lastN]
  omega

theorem lastN_of_le {n : Nat} {l : List α} (h : l.length ≤ n) : lastN n l = l := by
  simp [lastN, Nat.sub_eq_zero_of_le h]

theorem ledgerAppend_eq (cap : Nat) (logs : List Activity) (a : Activity) :
    ledgerAppend cap logs a =
      if logs.length + 1 > cap then lastN cap (logs ++ [a]) else logs ++ [a] := by
  simp [ledgerAppend]

theorem lastN_lastN_append {cap : Nat} (hcap : 0 < cap) (l : List Activity) (a : Activity) :
    lastN cap (lastN cap l ++ [a]) = lastN cap (l ++ [a]) := by
  rcases le_or_lt l.length cap with h | h
  · rw [lastN_of_le h]
  · have hx : (lastN cap l).length = cap := by rw [lastN_length]; omega
    unfold lastN
    rw [List.length_append, List.length_append, List.length_drop]
    have e1 : l.length - (l.length - cap) + [a].length - cap = 1 := by simp; omega
    have e2 : l.length + [a].length - cap = (l.length - cap) + 1 := by simp; omega
    rw [e1, e2]
    rw [List.drop_append_of_le_length (by rw [List.length_drop]; omega),
        List.drop_append_of_le_length (by omega)]
    rw [List.drop_drop]

theorem ledgerAppend_lastN {cap : Nat} (hcap : 0 < cap) (l : List Activity) (a : Activity) :
    ledgerAppend cap (lastN cap l) a = lastN cap (l ++ [a]) := by
  rw [ledgerAppend_eq]
  by_cases h : (lastN cap l).length + 1 > cap
  · rw [if_pos h, lastN_lastN_append hcap]
  · rw [if_neg h]
    have hl : l.length < cap := by
      rw [lastN_length] at h
      omega
    rw [lastN_of_le (Nat.le_of_lt hl), lastN_of_le (by simp; omega)]

theorem foldl_ledgerAppend {cap : Nat} (hcap : 0 < cap) (acts l : List Activity) :
    acts.foldl (ledgerAppend cap) (lastN cap l) = lastN cap (l ++ acts) := by
  induction acts generalizing l with
  | nil => simp
  | cons a as ih =>
    rw [List.foldl_cons, ledgerAppend_lastN hcap, ih (l ++ [a])]
    simp

theorem runActivities_cons (m : UEBAMonitor) (c : CallInput) (cs : List CallInput) :
    runActivities m (c :: cs) = runActivities (log_agent_activity m c).monitor cs := rfl

theorem log_agent_activity_logs (m : UEBAMonitor) (c : CallInput) :
    (log_agent_activity m c).monitor.activity_logs =
      ledgerAppend 10000 m.activity_logs (toActivity c) := by
  unfold log_agent_activity
  simp only []
  cases h : check_anomaly (appendActivity m c) c.now c.hour c.day_of_week c.agent c.action <;>
    simp [appendActivity]

theorem log_agent_activity_anomaly (m : UEBAMonitor) (c : CallInput) :
    (log_agent_activity m c).anomaly =
      check_anomaly (appendActivity m c) c.now c.hour c.day_of_week c.agent c.action := rfl

theorem log_agent_activity_ret (m : UEBAMonitor) (c : CallInput) :
    (log_agent_activity m c).ret = none := rfl

theorem runActivities_logs (calls : List CallInput) (m : UEBAMonitor) :
    (runActivities m calls).activity_logs =
      calls.foldl (fun logs c => ledgerAppend 10000 logs (toActivity c)) m.activity_logs := by
  induction calls generalizing m with
  | nil => rfl
  | cons c cs ih =>
    rw [runActivities_cons, List.foldl_cons, ih, log_agent_activity_logs]

theorem runActivities_init_logs (mo : Option MLModel) (skl : Bool) (calls : List CallInput) :
    (runActivities (UEBAMonitor.init mo skl) calls).activity_logs =
      lastN 10000 (calls.map toActivity) := by
  rw [runActivities_logs]
  have h0 : (UEBAMonitor.init mo skl).activity_logs = lastN 10000 ([] : List Activity) := rfl
  rw [h0, ← List.foldl_map toActivity (ledgerAppend 10000),
      foldl_ledgerAppend (by omega)]
  simp

theorem rateFindings_type {logs : List Activity} {now : Int} {agent : String}
    {f : Finding} (hf : f ∈ rateFindings logs now agent) :
    f.type = "rate_limit_exceeded" := by
  unfold rateFindings at hf
  split at hf
  · simp at hf
  · split at hf
    · simp at hf
      rw [hf]
    · simp at hf

theorem unauthorizedFindings_type {agent action : String} {f : Finding}
    (hf : f ∈ unauthorizedFindings agent action) :
    f.type = "unauthorized_action" := by
  unfold unauthorizedFindings at hf
  split at hf
  · simp at hf
  · split at hf
    · simp at hf
    · simp at hf
      rw [hf]

theorem mlFindings_type {mo : Option MLModel} {skl : Bool} {logs : List Activity}
    {nh nd : Nat} {agent : String} {f : Finding}
    (hf : f ∈ mlFindings mo skl logs nh nd agent) :
    f.type = "ml_anomaly" := by
  unfold mlFindings at hf
  split at hf
  · simp at hf
  · split at hf
    · split at hf
      · simp at hf
      · split at hf
        · simp at hf
        · split at hf
          · simp at hf
            rw [hf]
          · simp at hf
          · simp at hf
    · simp at hf

theorem reportAny_check_anomaly (m : UEBAMonitor) (now : Int)
    (nh nd : Nat) (agent action : String) (p : Finding → Bool) :
    reportAny (check_anomaly m now nh nd agent action) p =
      (rateFindings m.activity_logs now agent
        ++ unauthorizedFindings agent action
        ++ mlFindings m.model m.sklearn_available m.activity_logs nh nd agent).any p := by
  unfold check_anomaly reportAny
  simp only []
  by_cases h : (rateFindings m.activity_logs now agent
      ++ unauthorizedFindings agent action
      ++ mlFindings m.model m.sklearn_available m.activity_logs nh nd agent).isEmpty
  · rw [if_pos h]
    rw [List.isEmpty_iff] at h
    rw [h]
    rfl
  · rw [if_neg h]


theorem appendActivity_model (m : UEBAMonitor) (c : CallInput) :
    (appendActivity m c).model = m.model := rfl

theorem appendActivity_skl (m : UEBAMonitor) (c : CallInput) :
    (appendActivity m c).sklearn_available = m.sklearn_available := rfl

theorem appendActivity_logs (m : UEBAMonitor) (c : CallInput) :
    (appendActivity m c).activity_logs =
      ledgerAppend 10000 m.activity_logs (toActivity c) := rfl

theorem tdSeconds_self (t : Int) : tdSeconds t t = 0 := by
  simp [tdSeconds]

theorem runActivities_init_logs_small (mo : Option MLModel) (skl : Bool)
    (calls : List CallInput) (h : calls.length ≤ 10000) :
    (runActivities (UEBAMonitor.init mo skl) calls).activity_logs =
      calls.map toActivity := by
  rw [runActivities_init_logs, lastN_of_le (by simpa using h)]

theorem any_type_false {l : List Finding} {t t' : String}
    (hl : ∀ f ∈ l, f.type = t') (hne : t' ≠ t) :
    l.any (fun f => f.type == t) = false := by
  rw [List.any_eq_false]
  intro f hf
  rw [hl f hf]
  simp [hne]

theorem mlFindings_empty_of {mo : Option MLModel} (skl : Bool)
    (logs : List Activity) (nh nd : Nat) (agent : String)
    (h : mo = none ∨ ∃ f, mo = some f ∧ ∀ feats, ∃ e, f.predict feats = Except.error e) :
    mlFindings mo skl logs nh nd agent = [] := by
  rcases h with h | ⟨f, hf, herr⟩
  · rw [h]
    rfl
  · rw [hf]
    unfold mlFindings
    simp only []
    split
    · split
      · rfl
      · split
        · rfl
        · rcases herr _ with ⟨e, he⟩
          rw [he]
    · rfl


theorem log_agent_activity_handled (m : UEBAMonitor) (c : CallInput) :
    (log_agent_activity m c).monitor.handled =
      (match check_anomaly (appendActivity m c) c.now c.hour c.day_of_week
               c.agent c.action with
       | some r => m.handled ++ [(toActivity c, r)]
       | none => m.handled) := by
  unfold log_agent_activity
  simp only []
  cases h : check_anomaly (appendActivity m c) c.now c.hour c.day_of_week c.agent c.action <;>
    simp [appendActivity]

/-- C1 (counterexample): a call on which a finding is detected (the action
is outside the agent's allow-list, and the anomaly handler receives a
report) nevertheless returns `None` to the caller, against the claimed
`record(...) -> AnomalyReport|None` contract. -/
theorem record_returns_none_despite_finding :
    (log_agent_activity (UEBAMonitor.init none false)
       ⟨0, 0, 0, "customer_agent", "bad_action", []⟩).anomaly ≠ none
    ∧ (log_agent_activity (UEBAMonitor.init none false)
       ⟨0, 0, 0, "customer_agent", "bad_action", []⟩).ret = none := by
  constructor
  · decide
  · rfl

/-- C1 (amended): `log_agent_activity` always returns `None` to its caller;
whenever at least one finding is detected it synthesizes the merged report
internally and passes it to the anomaly handler (`_handle_anomaly`), and
when no finding is detected the handler is not invoked. -/
theorem record_return_and_handler_contract (m : UEBAMonitor) (c : CallInput) :
    (log_agent_activity m c).ret = none
    ∧ (log_agent_activity m c).anomaly =
        check_anomaly (appendActivity m c) c.now c.hour c.day_of_week
          c.agent c.action
    ∧ (match (log_agent_activity m c).anomaly with
       | some r =>
           (log_agent_activity m c).monitor.handled = m.handled ++ [(toActivity c, r)]
       | none => (log_agent_activity m c).monitor.handled = m.handled) := by
  refine ⟨rfl, rfl, ?_⟩
  rw [log_agent_activity_anomaly, log_agent_activity_handled]
  cases h : check_anomaly (appendActivity m c) c.now c.hour c.day_of_week c.agent c.action <;>
    simp

/-- A sample sensor payload for concrete runs. -/
def sampleSensor : SensorData := ⟨some "2024-01-01T00:00:00", []⟩

/-- A diagnosis with `critical_alert` and `auto_schedule` both true. -/
def sampleDiagnosis : DiagnosisResult :=
  ⟨true, true, some "battery_replacement", none, []⟩

/-- Collaborators for which every stage succeeds and the diagnosis is
critical with auto-scheduling. -/
def collabAllOk : Collaborators :=
  ⟨fun _ _ => Except.ok ⟨[]⟩, fun _ _ => Except.ok sampleDiagnosis,
   fun _ _ => Except.ok ⟨[]⟩, fun _ _ => Except.ok ⟨[("status", "scheduled")]⟩⟩

/-- Same as `collabAllOk` except that the scheduling collaborator raises. -/
def collabSchedFail : Collaborators :=
  ⟨fun _ _ => Except.ok ⟨[]⟩, fun _ _ => Except.ok sampleDiagnosis,
   fun _ _ => Except.ok ⟨[]⟩, fun _ _ => Except.error "scheduling agent unreachable"⟩

/-- C4 (counterexample): in a full pipeline run (critical diagnosis with
auto-scheduling, all collaborators succeeding) the trace contains exactly
one Behavior Monitor record against four collaborator invocations, and the
diagnose, notify and schedule invocations are not each preceded by a
monitor record: the monitor is invoked once at the start of the run, not
before every stage transition. -/
theorem pipeline_not_monitored_per_stage :
    (process_telematics_data collabAllOk (UEBAMonitor.init none false)
        0 0 0 "V9" sampleSensor).trace =
      [PipelineEvent.monitorRecord "master_agent" "process_telematics_data",
       PipelineEvent.analyzeCall "V9", PipelineEvent.diagnoseCall "V9",
       PipelineEvent.notifyCall "V9",
       PipelineEvent.scheduleCall "V9" (some "battery_replacement")]
    ∧ monitoredBeforeEachStage
        (process_telematics_data collabAllOk (UEBAMonitor.init none false)
          0 0 0 "V9" sampleSensor).trace = false
    ∧ (process_telematics_data collabAllOk (UEBAMonitor.init none false)
        0 0 0 "V9" sampleSensor).trace.countP isMonitorRecord = 1
    ∧ (process_telematics_data collabAllOk (UEBAMonitor.init none false)
        0 0 0 "V9" sampleSensor).trace.countP isCollaboratorCall = 4 := by
  refine ⟨by decide, by decide, by decide, by decide⟩

/-- C4 (amended): every pipeline run issues exactly one Behavior Monitor
record, as the first event of the run, before any collaborator call; every
later trace event is a collaborator invocation.  Hence a monitoring record
precedes all of the analyze, diagnose, notify and schedule invocations, but
there is no separate record per stage transition. -/
theorem pipeline_single_monitor_record_first (c : Collaborators)
    (m : UEBAMonitor) (now : Int) (hr dy : Nat) (vid : String)
    (sd : SensorData) :
    ∃ rest, (process_telematics_data c m now hr dy vid sd).trace =
        PipelineEvent.monitorRecord "master_agent" "process_telematics_data" :: rest
      ∧ rest.all isCollaboratorCall = true := by
  rcases hA : c.analyze_data vid sd with e | a
  · exact ⟨[PipelineEvent.analyzeCall vid],
      by simp [process_telematics_data, hA], rfl⟩
  · rcases hD : c.predict_failures vid a with e | d
    · exact ⟨[PipelineEvent.analyzeCall vid, PipelineEvent.diagnoseCall vid],
        by simp [process_telematics_data, hA, hD], rfl⟩
    · cases hc : d.critical_alert with
      | false =>
        exact ⟨[PipelineEvent.analyzeCall vid, PipelineEvent.diagnoseCall vid],
          by simp [process_telematics_data, hA, hD, hc], rfl⟩
      | true =>
        rcases hN : c.send_alert vid d with e | n
        · exact ⟨[PipelineEvent.analyzeCall vid, PipelineEvent.diagnoseCall vid,
                  PipelineEvent.notifyCall vid],
            by simp [process_telematics_data, hA, hD, hc, hN], rfl⟩
        · cases hs : d.auto_schedule with
          | false =>
            exact ⟨[PipelineEvent.analyzeCall vid, PipelineEvent.diagnoseCall vid,
                    PipelineEvent.notifyCall vid],
              by simp [process_telematics_data, hA, hD, hc, hN, hs], rfl⟩
          | true =>
            rcases hS : c.auto_schedule vid d.recommended_service with e | sr
            · exact ⟨[PipelineEvent.analyzeCall vid, PipelineEvent.diagnoseCall vid,
                      PipelineEvent.notifyCall vid,
                      PipelineEvent.scheduleCall vid d.recommended_service],
                by simp [process_telematics_data, hA, hD, hc, hN, hs, hS], rfl⟩
            · exact ⟨[PipelineEvent.analyzeCall vid, PipelineEvent.diagnoseCall vid,
                      PipelineEvent.notifyCall vid,
                      PipelineEvent.scheduleCall vid d.recommended_service],
                by simp [process_telematics_data, hA, hD, hc, hN, hs, hS], rfl⟩

/-- C2 (counterexample): with a diagnosis yielding `critical_alert = true`
and `auto_schedule = true` and a scheduling collaborator that raises, the
pipeline run does not return a `PipelineOutcome`: the scheduling exception
propagates to the caller (the orchestrator's `except` clause re-raises).
The notification collaborator had already been invoked, as the trace
shows. -/
theorem pipeline_schedule_failure_raises_concrete :
    sampleDiagnosis.critical_alert = true
    ∧ sampleDiagnosis.auto_schedule = true
    ∧ (process_telematics_data collabSchedFail (UEBAMonitor.init none false)
        0 0 0 "V9" sampleSensor).result = Except.error "scheduling agent unreachable"
    ∧ (process_telematics_data collabSchedFail (UEBAMonitor.init none false)
        0 0 0 "V9" sampleSensor).trace =
      [PipelineEvent.monitorRecord "master_agent" "process_telematics_data",
       PipelineEvent.analyzeCall "V9", PipelineEvent.diagnoseCall "V9",
       PipelineEvent.notifyCall "V9",
       PipelineEvent.scheduleCall "V9" (some "battery_replacement")] := by
  refine ⟨rfl, rfl, rfl, by decide⟩

/-- C2 (amended): when diagnosis yields `critical_alert = true` and
`auto_schedule = true`, the notification succeeds, and the scheduling
collaborator raises, the pipeline run fails with that exception (no
`PipelineOutcome` is returned); the notification collaborator was invoked
before the scheduling attempt, so the critical alert had already been
delivered when the run failed. -/
theorem pipeline_schedule_failure_propagates (c : Collaborators)
    (m : UEBAMonitor) (now : Int) (hr dy : Nat) (vid : String)
    (sd : SensorData) (a : AnalysisResult) (d : DiagnosisResult)
    (n : NotifyResult) (e : PyErr)
    (hA : c.analyze_data vid sd = Except.ok a)
    (hD : c.predict_failures vid a = Except.ok d)
    (hc : d.critical_alert = true)
    (hs : d.auto_schedule = true)
    (hN : c.send_alert vid d = Except.ok n)
    (hS : c.auto_schedule vid d.recommended_service = Except.error e) :
    (process_telematics_data c m now hr dy vid sd).result = Except.error e
    ∧ (process_telematics_data c m now hr dy vid sd).trace =
      [PipelineEvent.monitorRecord "master_agent" "process_telematics_data",
       PipelineEvent.analyzeCall vid, PipelineEvent.diagnoseCall vid,
       PipelineEvent.notifyCall vid,
       PipelineEvent.scheduleCall vid d.recommended_service] := by
  constructor
  · simp [process_telematics_data, hA, hD, hc, hs, hN, hS]
  · simp [process_telematics_data, hA, hD, hc, hs, hN, hS]

/-- C2 (witness for the amended theorem): the amended theorem applied to the
concrete collaborators whose scheduler raises. -/
theorem pipeline_schedule_failure_propagates_witness :
    (process_telematics_data collabSchedFail (UEBAMonitor.init none false)
        0 0 0 "V9" sampleSensor).result = Except.error "scheduling agent unreachable" :=
  (pipeline_schedule_failure_propagates collabSchedFail (UEBAMonitor.init none false)
    0 0 0 "V9" sampleSensor ⟨[]⟩ sampleDiagnosis ⟨[]⟩ "scheduling agent unreachable"
    rfl rfl rfl rfl rfl rfl).1

/-- C5: branching of the pipeline.  Given successful analysis and diagnosis:
a non-critical diagnosis invokes neither the notification nor the
scheduling collaborator; a critical diagnosis without `auto_schedule`
invokes notification but not scheduling; a critical diagnosis with
`auto_schedule` invokes notification and then scheduling, in that order,
and the scheduling result is attached to the diagnosis result in the
returned outcome. -/
theorem pipeline_branching (c : Collaborators) (m : UEBAMonitor) (now : Int)
    (hr dy : Nat) (vid : String) (sd : SensorData) (a : AnalysisResult)
    (d : DiagnosisResult)
    (hA : c.analyze_data vid sd = Except.ok a)
    (hD : c.predict_failures vid a = Except.ok d) :
    (d.critical_alert = false →
       (process_telematics_data c m now hr dy vid sd).trace =
         [PipelineEvent.monitorRecord "master_agent" "process_telematics_data",
          PipelineEvent.analyzeCall vid, PipelineEvent.diagnoseCall vid]
       ∧ (process_telematics_data c m now hr dy vid sd).result =
           Except.ok ⟨vid, a, d, sd.timestamp⟩)
    ∧ (∀ n : NotifyResult, d.critical_alert = true → d.auto_schedule = false →
         c.send_alert vid d = Except.ok n →
         (process_telematics_data c m now hr dy vid sd).trace =
           [PipelineEvent.monitorRecord "master_agent" "process_telematics_data",
            PipelineEvent.analyzeCall vid, PipelineEvent.diagnoseCall vid,
            PipelineEvent.notifyCall vid]
         ∧ (process_telematics_data c m now hr dy vid sd).result =
             Except.ok ⟨vid, a, d, sd.timestamp⟩)
    ∧ (∀ (n : NotifyResult) (sr : ScheduleResult),
         d.critical_alert = true → d.auto_schedule = true →
         c.send_alert vid d = Except.ok n →
         c.auto_schedule vid d.recommended_service = Except.ok sr →
         (process_telematics_data c m now hr dy vid sd).trace =
           [PipelineEvent.monitorRecord "master_agent" "process_telematics_data",
            PipelineEvent.analyzeCall vid, PipelineEvent.diagnoseCall vid,
            PipelineEvent.notifyCall vid,
            PipelineEvent.scheduleCall vid d.recommended_service]
         ∧ (process_telematics_data c m now hr dy vid sd).result =
             Except.ok ⟨vid, a, { d with scheduling := some sr }, sd.timestamp⟩) := by
  refine ⟨?_, ?_, ?_⟩
  · intro hc
    constructor
    · simp [process_telematics_data, hA, hD, hc]
    · simp [process_telematics_data, hA, hD, hc]
  · intro n hc hs hN
    constructor
    · simp [process_telematics_data, hA, hD, hc, hs, hN]
    · simp [process_telematics_data, hA, hD, hc, hs, hN]
  · intro n sr hc hs hN hS
    constructor
    · simp [process_telematics_data, hA, hD, hc, hs, hN, hS]
    · simp [process_telematics_data, hA, hD, hc, hs, hN, hS]

/-- C5 (witness): the branching theorem applied to concrete collaborators
with a critical, auto-scheduling diagnosis where every stage succeeds. -/
theorem pipeline_branching_witness :
    (process_telematics_data collabAllOk (UEBAMonitor.init none false)
        0 0 0 "V9" sampleSensor).result =
      Except.ok ⟨"V9", ⟨[]⟩,
        { sampleDiagnosis with scheduling := some ⟨[("status", "scheduled")]⟩ },
        sampleSensor.timestamp⟩ :=
  ((pipeline_branching collabAllOk (UEBAMonitor.init none false) 0 0 0 "V9"
      sampleSensor ⟨[]⟩ sampleDiagnosis rfl rfl).2.2 ⟨[]⟩
      ⟨[("status", "scheduled")]⟩ rfl rfl rfl rfl).2


/-- C6: FIFO bound of the Activity Ledger.  Starting from a fresh monitor,
after any sequence of more than 10000 record calls the ledger holds exactly
the 10000 most recent events in arrival order (the `lastN 10000` of the
arrival sequence); and for any sequence whatsoever the ledger never exceeds
the capacity of 10000. -/
theorem activity_ledger_fifo_bound (mo : Option MLModel) (skl : Bool)
    (calls : List CallInput) (h : 10000 < calls.length) :
    (runActivities (UEBAMonitor.init mo skl) calls).activity_logs =
      lastN 10000 (calls.map toActivity)
    ∧ (runActivities (UEBAMonitor.init mo skl) calls).activity_logs.length = 10000
    ∧ ∀ calls' : List CallInput,
        (runActivities (UEBAMonitor.init mo skl) calls').activity_logs.length ≤ 10000 := by
  refine ⟨runActivities_init_logs mo skl calls, ?_, ?_⟩
  · rw [runActivities_init_logs, lastN_length]
    simp only [List.length_map]
    omega
  · intro calls'
    rw [runActivities_init_logs, lastN_length]
    omega

/-- C6 (witness): the FIFO-bound theorem applied to 10001 identical calls. -/
theorem activity_ledger_fifo_bound_witness :
    (runActivities (UEBAMonitor.init none false)
        (List.replicate 10001 ⟨0, 0, 0, "master_agent", "get_vehicle_status", []⟩)).activity_logs.length
      = 10000 :=
  (activity_ledger_fifo_bound none false
    (List.replicate 10001 ⟨0, 0, 0, "master_agent", "get_vehicle_status", []⟩)
    (by rw [List.length_replicate]; omega)).2.1

/-- C7: graceful degradation of the Outlier Scorer.  If the model is absent
(`None`, e.g. scikit-learn unavailable or model creation failed) or every
invocation of the model raises (caught by the `except` clause), then a
record call returns exactly the rate-limit/allow-list findings computed by
the policy checks, wrapped in a report when non-empty and `None` otherwise.
The embedding is a total function, mirroring that no scorer error
propagates to the caller. -/
theorem record_policy_only_when_model_unavailable (m : UEBAMonitor)
    (c : CallInput)
    (h : m.model = none
         ∨ ∃ f, m.model = some f ∧ ∀ feats, ∃ e, f.predict feats = Except.error e) :
    (log_agent_activity m c).ret = none
    ∧ (log_agent_activity m c).anomaly =
        (if (rateFindings (appendActivity m c).activity_logs c.now c.agent
              ++ unauthorizedFindings c.agent c.action).isEmpty
         then none
         else some ⟨true,
           rateFindings (appendActivity m c).activity_logs c.now c.agent
             ++ unauthorizedFindings c.agent c.action, c.agent, c.action⟩) := by
  refine ⟨rfl, ?_⟩
  rw [log_agent_activity_anomaly]
  unfold check_anomaly
  rw [appendActivity_model, appendActivity_skl,
      mlFindings_empty_of m.sklearn_available _ c.hour c.day_of_week c.agent h,
      List.append_nil]

/-- C7 (witness): the degradation theorem applied to a fresh monitor with no
model and an unauthorized action, which yields the allow-list finding. -/
theorem record_policy_only_when_model_unavailable_witness :
    (log_agent_activity (UEBAMonitor.init none false)
        ⟨0, 0, 0, "customer_agent", "bad_action", []⟩).ret = none
    ∧ (log_agent_activity (UEBAMonitor.init none false)
        ⟨0, 0, 0, "customer_agent", "bad_action", []⟩).anomaly =
        (if (rateFindings
                (appendActivity (UEBAMonitor.init none false)
                  ⟨0, 0, 0, "customer_agent", "bad_action", []⟩).activity_logs
                0 "customer_agent"
              ++ unauthorizedFindings "customer_agent" "bad_action").isEmpty
         then none
         else some ⟨true,
           rateFindings
               (appendActivity (UEBAMonitor.init none false)
                 ⟨0, 0, 0, "customer_agent", "bad_action", []⟩).activity_logs
               0 "customer_agent"
             ++ unauthorizedFindings "customer_agent" "bad_action",
           "customer_agent", "bad_action"⟩) :=
  record_policy_only_when_model_unavailable (UEBAMonitor.init none false)
    ⟨0, 0, 0, "customer_agent", "bad_action", []⟩ (Or.inl rfl)

/-- C8: allow-list check.  For any monitor state (hence regardless of call
volume or rate-check outcome) and any call by an agent with a registered
profile: an action outside the profile's `allowed_actions` always yields an
`unauthorized_action` finding of severity `critical`, and an action inside
`allowed_actions` never yields an `unauthorized_action` finding. -/
theorem allow_list_check (m : UEBAMonitor) (c : CallInput) (pat : Pattern)
    (hpat : lookupPattern c.agent = some pat) :
    (pat.allowed_actions.contains c.action = false →
       hasFindingOfTypeSev (log_agent_activity m c).anomaly
         "unauthorized_action" "critical" = true)
    ∧ (pat.allowed_actions.contains c.action = true →
       hasFindingOfType (log_agent_activity m c).anomaly
         "unauthorized_action" = false) := by
  constructor
  · intro hact
    rw [log_agent_activity_anomaly]
    unfold hasFindingOfTypeSev
    rw [reportAny_check_anomaly]
    have hmem : c.action ∉ pat.allowed_actions := by simpa using hact
    have hu : unauthorizedFindings c.agent c.action =
        [⟨"unauthorized_action", "critical",
          "Agent " ++ c.agent ++ " attempted unauthorized action: " ++ c.action⟩] := by
      simp [unauthorizedFindings, hpat, hmem]
    rw [hu]
    simp
  · intro hact
    rw [log_agent_activity_anomaly]
    unfold hasFindingOfType
    rw [reportAny_check_anomaly]
    have hmem : c.action ∈ pat.allowed_actions := by simpa using hact
    have hu : unauthorizedFindings c.agent c.action = [] := by
      simp [unauthorizedFindings, hpat, hmem]
    rw [hu]
    simp only [List.append_nil, List.any_append]
    rw [any_type_false (fun f hf => rateFindings_type hf) (by decide),
        any_type_false (fun f hf => mlFindings_type hf) (by decide)]
    rfl

/-- C8 (witness): the allow-list theorem applied to a fresh monitor, an
agent with a registered profile and an action outside its allow-list. -/
theorem allow_list_check_witness :
    hasFindingOfTypeSev
      (log_agent_activity (UEBAMonitor.init none false)
        ⟨0, 0, 0, "customer_agent", "bad_action", []⟩).anomaly
      "unauthorized_action" "critical" = true :=
  (allow_list_check (UEBAMonitor.init none false)
    ⟨0, 0, 0, "customer_agent", "bad_action", []⟩
    ⟨50, ["process_message", "send_alert"]⟩ rfl).1 rfl

/-- C9: per-entity minimum history for the Outlier Scorer.  If, at
evaluation time (the ledger after the current event is appended), fewer
than 5 of the last 100 ledger entries belong to the recording agent, then
feature extraction returns `None` and the record call yields no
`ml_anomaly` (statistical outlier) finding: insufficient data is not
treated as an anomaly. -/
theorem no_outlier_verdict_below_min_history (m : UEBAMonitor) (c : CallInput)
    (h : ((lastN 100 (appendActivity m c).activity_logs).filter
            (fun l => l.agent == c.agent)).length < 5) :
    extract_features (appendActivity m c).activity_logs c.hour c.day_of_week
      c.agent = none
    ∧ hasFindingOfType (log_agent_activity m c).anomaly "ml_anomaly" = false := by
  have hef : extract_features (appendActivity m c).activity_logs c.hour
      c.day_of_week c.agent = none := by
    unfold extract_features
    simp only []
    rw [if_pos h]
  refine ⟨hef, ?_⟩
  rw [log_agent_activity_anomaly]
  unfold hasFindingOfType
  rw [reportAny_check_anomaly]
  have hml : mlFindings (appendActivity m c).model
      (appendActivity m c).sklearn_available
      (appendActivity m c).activity_logs c.hour c.day_of_week c.agent = [] := by
    unfold mlFindings
    cases (appendActivity m c).model with
    | none => rfl
    | some f =>
      simp only []
      split
      · rw [hef]
      · rfl
  rw [hml, List.append_nil, List.any_append]
  rw [any_type_false (fun f hf => rateFindings_type hf) (by decide),
      any_type_false (fun f hf => unauthorizedFindings_type hf) (by decide)]
  rfl

/-- C9 (witness): a fresh monitor recording its first event has one matching
entry in the window, so no outlier verdict is possible. -/
theorem no_outlier_verdict_below_min_history_witness :
    hasFindingOfType
      (log_agent_activity (UEBAMonitor.init none false)
        ⟨0, 0, 0, "customer_agent", "send_alert", []⟩).anomaly "ml_anomaly" = false :=
  (no_outlier_verdict_below_min_history (UEBAMonitor.init none false)
    ⟨0, 0, 0, "customer_agent", "send_alert", []⟩ (by decide)).2

/-- C10: global-history precondition of the ML check.  A record call can
yield an `ml_anomaly` (statistical outlier) finding only when the ledger at
check time (current event included) holds at least 10 events across all
agents — in addition to the per-agent minimum of 5 matching entries in the
scan window, a loaded model and scikit-learn being available. -/
theorem ml_finding_requires_global_history (m : UEBAMonitor) (c : CallInput)
    (h : hasFindingOfType (log_agent_activity m c).anomaly "ml_anomaly" = true) :
    10 ≤ (appendActivity m c).activity_logs.length
    ∧ 5 ≤ ((lastN 100 (appendActivity m c).activity_logs).filter
            (fun l => l.agent == c.agent)).length
    ∧ m.model ≠ none
    ∧ m.sklearn_available = true := by
  rw [log_agent_activity_anomaly] at h
  unfold hasFindingOfType at h
  rw [reportAny_check_anomaly, List.any_append, List.any_append] at h
  rw [any_type_false (fun f hf => rateFindings_type hf) (by decide),
      any_type_false (fun f hf => unauthorizedFindings_type hf) (by decide)] at h
  simp only [Bool.false_or] at h
  have hne : mlFindings (appendActivity m c).model
      (appendActivity m c).sklearn_available
      (appendActivity m c).activity_logs c.hour c.day_of_week c.agent ≠ [] := by
    intro h0
    rw [h0] at h
    simp at h
  rw [appendActivity_model, appendActivity_skl] at hne
  unfold mlFindings at hne
  cases hmo : m.model with
  | none =>
    rw [hmo] at hne
    exact absurd rfl hne
  | some f =>
    rw [hmo] at hne
    simp only [] at hne
    by_cases hg : (m.sklearn_available
        && decide ((appendActivity m c).activity_logs.length ≥ 10)) = true
    · rw [if_pos hg] at hne
      rcases Bool.and_eq_true_iff.mp hg with ⟨hskl, hlen⟩
      have hlen10 : 10 ≤ (appendActivity m c).activity_logs.length :=
        of_decide_eq_true hlen
      refine ⟨hlen10, ?_, fun hh => Option.noConfusion hh, hskl⟩
      cases hx : extract_features (appendActivity m c).activity_logs c.hour
          c.day_of_week c.agent with
      | none => rw [hx] at hne; exact absurd rfl hne
      | some feats =>
        unfold extract_features at hx
        simp only [] at hx
        by_cases h5 : ((lastN 100 (appendActivity m c).activity_logs).filter
            (fun l => l.agent == c.agent)).length < 5
        · rw [if_pos h5] at hx
          exact Option.noConfusion hx
        · omega
    · rw [if_neg hg] at hne
      exact absurd rfl hne

/-- C10 (witness): the global-history theorem applied to a run where the
tenth recorded event, with an always-outlier model and scikit-learn
available, does yield an `ml_anomaly` finding. -/
theorem ml_finding_requires_global_history_witness :
    10 ≤ (appendActivity
      (runActivities
        (UEBAMonitor.init (some ⟨fun _ => Except.ok true⟩) true)
        (List.replicate 9 ⟨0, 0, 0, "ghost_agent", "probe", []⟩))
      ⟨0, 0, 0, "ghost_agent", "probe", []⟩).activity_logs.length :=
  (ml_finding_requires_global_history
    (runActivities
      (UEBAMonitor.init (some ⟨fun _ => Except.ok true⟩) true)
      (List.replicate 9 ⟨0, 0, 0, "ghost_agent", "probe", []⟩))
    ⟨0, 0, 0, "ghost_agent", "probe", []⟩ (by decide)).1


theorem log_agent_activity_model (m : UEBAMonitor) (c : CallInput) :
    (log_agent_activity m c).monitor.model = m.model := by
  unfold log_agent_activity
  simp only []
  cases h : check_anomaly (appendActivity m c) c.now c.hour c.day_of_week c.agent c.action <;>
    simp [appendActivity]

theorem log_agent_activity_sklearn (m : UEBAMonitor) (c : CallInput) :
    (log_agent_activity m c).monitor.sklearn_available = m.sklearn_available := by
  unfold log_agent_activity
  simp only []
  cases h : check_anomaly (appendActivity m c) c.now c.hour c.day_of_week c.agent c.action <;>
    simp [appendActivity]

theorem runActivities_model (calls : List CallInput) (m : UEBAMonitor) :
    (runActivities m calls).model = m.model := by
  induction calls generalizing m with
  | nil => rfl
  | cons c cs ih => rw [runActivities_cons, ih, log_agent_activity_model]

theorem runActivities_sklearn (calls : List CallInput) (m : UEBAMonitor) :
    (runActivities m calls).sklearn_available = m.sklearn_available := by
  induction calls generalizing m with
  | nil => rfl
  | cons c cs ih => rw [runActivities_cons, ih, log_agent_activity_sklearn]

/-- The anomaly check reads only the ledger, the model and the sklearn flag
of the monitor state. -/
theorem check_anomaly_fields (m : UEBAMonitor) (now : Int) (nh nd : Nat)
    (agent action : String) :
    check_anomaly m now nh nd agent action =
      check_anomaly ⟨m.activity_logs, m.model, m.sklearn_available, [], []⟩
        now nh nd agent action := rfl

set_option maxRecDepth 4000 in
/-- C3 (counterexample): the rate-limit check scans only the last 100 ledger
entries, so for the registered profile of `master_agent`
(`max_calls_per_minute = 100`) recording 101 calls within 60 seconds (all
at the same instant here) yields no finding at all on the 101st call: at
most 100 entries can ever be counted, and 100 is not greater than 100. -/
theorem rate_limit_unreachable_for_k100 :
    (lookupPattern "master_agent").map Pattern.max_calls_per_minute = some 100
    ∧ (log_agent_activity
         (runActivities (UEBAMonitor.init none false)
           (List.replicate 100 ⟨0, 0, 0, "master_agent", "process_telematics_data", []⟩))
         ⟨0, 0, 0, "master_agent", "process_telematics_data", []⟩).anomaly = none := by
  refine ⟨rfl, ?_⟩
  rw [log_agent_activity_anomaly, check_anomaly_fields]
  have hlogs : (appendActivity
      (runActivities (UEBAMonitor.init none false)
        (List.replicate 100 ⟨0, 0, 0, "master_agent", "process_telematics_data", []⟩))
      ⟨0, 0, 0, "master_agent", "process_telematics_data", []⟩).activity_logs =
      List.replicate 101 (toActivity ⟨0, 0, 0, "master_agent", "process_telematics_data", []⟩) := by
    rw [appendActivity_logs,
        runActivities_init_logs_small _ _ _ (by rw [List.length_replicate]; omega),
        List.map_replicate, ledgerAppend_eq,
        if_neg (by rw [List.length_replicate]; omega)]
    rw [← List.replicate_succ']
  rw [hlogs, appendActivity_model, appendActivity_skl, runActivities_model,
      runActivities_sklearn]
  decide

/-- C3 (amended): the rate-limit behavior the source actually implements.
For an agent with registered profile `max_calls_per_minute = k`, provided
the `k + 1` calls fit inside the 100-entry scan window (`k + 1 ≤ 100`) and
the ledger contains only these calls: the `(k+1)`-th call within 60 seconds
always yields a `rate_limit_exceeded` finding (the count includes the
current call), and the `k`-th call never does.  For `k + 1 > 100` the
counterexample above shows the finding is not produced. -/
theorem rate_limit_within_window (agent : String) (pat : Pattern) (k : Nat)
    (mo : Option MLModel) (skl : Bool)
    (hpat : lookupPattern agent = some pat)
    (hk : pat.max_calls_per_minute = k)
    (hwin : k + 1 ≤ 100) :
    (∀ (pre : List CallInput) (clast : CallInput),
       pre.length = k →
       (∀ cc ∈ pre, cc.agent = agent) →
       (∀ cc ∈ pre, tdSeconds clast.now cc.now < 60) →
       clast.agent = agent →
       hasFindingOfType
         (log_agent_activity (runActivities (UEBAMonitor.init mo skl) pre) clast).anomaly
         "rate_limit_exceeded" = true)
    ∧ (∀ (pre : List CallInput) (clast : CallInput),
       pre.length + 1 = k →
       clast.agent = agent →
       hasFindingOfType
         (log_agent_activity (runActivities (UEBAMonitor.init mo skl) pre) clast).anomaly
         "rate_limit_exceeded" = false) := by
  constructor
  · intro pre clast hlen hagents htimes hcl
    have hpat' : lookupPattern clast.agent = some pat := by rw [hcl]; exact hpat
    rw [log_agent_activity_anomaly]
    unfold hasFindingOfType
    rw [reportAny_check_anomaly]
    have hlogs : (appendActivity (runActivities (UEBAMonitor.init mo skl) pre)
        clast).activity_logs = pre.map toActivity ++ [toActivity clast] := by
      rw [appendActivity_logs,
          runActivities_init_logs_small _ _ _ (by omega),
          ledgerAppend_eq,
          if_neg (by simp only [List.length_append, List.length_map,
            List.length_singleton]; omega)]
    have hwinlen : (pre.map toActivity ++ [toActivity clast]).length = k + 1 := by
      simp [hlen]
    have hfil : (pre.map toActivity ++ [toActivity clast]).filter
        (fun l => l.agent == clast.agent && decide (tdSeconds clast.now l.timestamp < 60))
        = pre.map toActivity ++ [toActivity clast] := by
      rw [List.filter_eq_self]
      intro x hx
      rcases List.mem_append.mp hx with hx | hx
      · rcases List.mem_map.mp hx with ⟨cc, hcc, rfl⟩
        rw [Bool.and_eq_true]
        constructor
        · exact beq_iff_eq.mpr (by rw [hcl]; exact hagents cc hcc)
        · exact decide_eq_true (htimes cc hcc)
      · rw [List.mem_singleton] at hx
        subst hx
        rw [Bool.and_eq_true]
        refine ⟨beq_iff_eq.mpr rfl, decide_eq_true ?_⟩
        show tdSeconds clast.now clast.now < 60
        rw [tdSeconds_self]
        norm_num
    have hrec : (recentActivities (pre.map toActivity ++ [toActivity clast])
        clast.now clast.agent).length = k + 1 := by
      unfold recentActivities
      rw [lastN_of_le (by rw [hwinlen]; omega), hfil, hwinlen]
    have hcond : (recentActivities (pre.map toActivity ++ [toActivity clast])
        clast.now clast.agent).length > pat.max_calls_per_minute := by
      rw [hrec, hk]
      omega
    rw [hlogs]
    simp [rateFindings, hpat', hcond, List.any_append]
  · intro pre clast hlen hcl
    have hpat' : lookupPattern clast.agent = some pat := by rw [hcl]; exact hpat
    rw [log_agent_activity_anomaly]
    unfold hasFindingOfType
    rw [reportAny_check_anomaly]
    have hlogs : (appendActivity (runActivities (UEBAMonitor.init mo skl) pre)
        clast).activity_logs = pre.map toActivity ++ [toActivity clast] := by
      rw [appendActivity_logs,
          runActivities_init_logs_small _ _ _ (by omega),
          ledgerAppend_eq,
          if_neg (by simp only [List.length_append, List.length_map,
            List.length_singleton]; omega)]
    have hcnt : (recentActivities (pre.map toActivity ++ [toActivity clast])
        clast.now clast.agent).length ≤ k := by
      have h1 := List.length_filter_le
        (fun l => l.agent == clast.agent && decide (tdSeconds clast.now l.timestamp < 60))
        (lastN 100 (pre.map toActivity ++ [toActivity clast]))
      have h2 : (lastN 100 (pre.map toActivity ++ [toActivity clast])).length ≤
          (pre.map toActivity ++ [toActivity clast]).length := by
        rw [lastN_length]
        omega
      have h3 : (pre.map toActivity ++ [toActivity clast]).length = k := by
        simp only [List.length_append, List.length_map, List.length_singleton]
        omega
      unfold recentActivities
      omega
    have hcond : ¬ ((recentActivities (pre.map toActivity ++ [toActivity clast])
        clast.now clast.agent).length > pat.max_calls_per_minute) := by
      rw [hk]
      omega
    rw [hlogs]
    have hrate : rateFindings (pre.map toActivity ++ [toActivity clast])
        clast.now clast.agent = [] := by
      simp [rateFindings, hpat', hcond]
    rw [hrate]
    simp only [List.nil_append, List.any_append]
    rw [any_type_false (fun f hf => unauthorizedFindings_type hf) (by decide),
        any_type_false (fun f hf => mlFindings_type hf) (by decide)]
    rfl

/-- C3 (witness): the amended theorem applied to `feedback_agent`
(`max_calls_per_minute = 20`): the 21st call at one instant yields the
rate-limit finding; a 19-call prefix makes the 20th call yield none. -/
theorem rate_limit_within_window_witness :
    hasFindingOfType
      (log_agent_activity
        (runActivities (UEBAMonitor.init none false)
          (List.replicate 20 ⟨0, 0, 0, "feedback_agent", "process_feedback", []⟩))
        ⟨0, 0, 0, "feedback_agent", "process_feedback", []⟩).anomaly
      "rate_limit_exceeded" = true
    ∧ hasFindingOfType
      (log_agent_activity
        (runActivities (UEBAMonitor.init none false)
          (List.replicate 19 ⟨0, 0, 0, "feedback_agent", "process_feedback", []⟩))
        ⟨0, 0, 0, "feedback_agent", "process_feedback", []⟩).anomaly
      "rate_limit_exceeded" = false := by
  constructor
  · exact (rate_limit_within_window "feedback_agent"
      ⟨20, ["process_feedback", "get_feedback_summary"]⟩ 20 none false rfl rfl
      (by omega)).1
      (List.replicate 20 ⟨0, 0, 0, "feedback_agent", "process_feedback", []⟩)
      ⟨0, 0, 0, "feedback_agent", "process_feedback", []⟩
      (by decide) (by decide) (by decide) rfl
  · exact (rate_limit_within_window "feedback_agent"
      ⟨20, ["process_feedback", "get_feedback_summary"]⟩ 20 none false rfl rfl
      (by omega)).2
      (List.replicate 19 ⟨0, 0, 0, "feedback_agent", "process_feedback", []⟩)
      ⟨0, 0, 0, "feedback_agent", "process_feedback", []⟩
      (by decide) rfl

end NWheeler
